import Mathlib

/-!
Verification of the quiz-batch backend (src/server.js).

The repository holds one Express server file in two variants, each exposing
POST /api/generate-quiz.  The handler destructures the request body, validates
it, asks a completion provider for a textual reply, trims it, strips markdown
fences, parses it with JSON.parse, substitutes a hard-coded fallback question
list when parsing throws, rejects non-array or empty parses, normalizes every
element into a fixed record shape, and answers with a success body carrying
pagination metadata.

This development embeds that pipeline shallowly:

* `Json` models the value space of JSON.parse, with numbers kept as exact
  decimal mantissa/exponent pairs (the claims never depend on IEEE rounding).
* `parseJson` models JSON.parse on the cleaned text: full RFC 8259 grammar,
  returning `none` where JSON.parse throws.  UTF-16 lone surrogates are not
  representable as Lean characters and are mapped to U+FFFD; no claim touches
  them.
* `cleanResponse` models the trim plus fence-stripping block.
* `getProp` models JS property access on a parsed value: it throws on null
  (modelled as `Except.error`) and yields undefined (`none`) when the key is
  absent or the value is a primitive or array.
* `handleQuizV1` / `handleQuizV2` model the two handler variants as functions
  from the request body and the provider reply text to the HTTP response; the
  provider call itself is modelled by passing the reply text as an argument,
  and `callsProvider` records whether the code reaches the provider call.
-/

/-- An exact decimal number `mantissa * 10 ^ exponent`, as produced by the
JSON number grammar.  Exactness is deliberate: no claim depends on float
rounding, and two records are only ever compared after being built by the
same code path. -/
structure JsonNumber where
  mantissa : Int
  exponent : Int
deriving DecidableEq, Repr

/-- A JSON value as produced by JSON.parse. -/
inductive Json where
  | obj (fields : List (String × Json))
  | arr (items : List Json)
  | str (value : String)
  | num (value : JsonNumber)
  | bool (value : Bool)
  | null

/-- Shorthand for an integer JSON number literal. -/
def Json.int (i : Int) : Json := Json.num ⟨i, 0⟩

/-! ### JSON.parse model -/

/-- JSON insignificant whitespace (RFC 8259: space, tab, line feed, carriage
return).  This is the set JSON.parse skips around tokens. -/
def isJsonWs (c : Char) : Bool :=
  [' ', '\t', '\n', '\r'].contains c

/-- Drop leading JSON whitespace. -/
def skipJsonWs (cs : List Char) : List Char := cs.dropWhile isJsonWs

/-- A decimal digit, by code point. -/
def isDigitChar (c : Char) : Bool :=
  48 ≤ c.toNat && c.toNat ≤ 57

/-- The numeric value of a decimal digit. -/
def digitValue (c : Char) : Nat := c.toNat - 48

/-- The numeric value of a hexadecimal digit, by code point ranges. -/
def hexDigitVal (c : Char) : Option Nat :=
  let n := c.toNat
  if 48 ≤ n && n ≤ 57 then some (n - 48)
  else if 97 ≤ n && n ≤ 102 then some (n - 87)
  else if 65 ≤ n && n ≤ 70 then some (n - 55)
  else none

/-- Exactly four hexadecimal digits, as in a backslash-u escape. -/
def fourHex (cs : List Char) : Option (Nat × List Char) :=
  match cs with
  | a :: b :: c :: d :: rest => do
    let va ← hexDigitVal a
    let vb ← hexDigitVal b
    let vc ← hexDigitVal c
    let vd ← hexDigitVal d
    pure (va * 4096 + vb * 256 + vc * 16 + vd, rest)
  | _ => none

/-- A Unicode code point as a Lean character.  Lone UTF-16 surrogates, which
JS strings can hold but Lean characters cannot, become U+FFFD. -/
def codePointChar (n : Nat) : Char :=
  if h : n < 0xd800 then Char.ofNatAux n (Or.inl h)
  else if h2 : 0xdfff < n ∧ n < 0x110000 then Char.ofNatAux n (Or.inr h2)
  else '�'

/-- The value of a digit run, most significant first. -/
def natOfDigits (ds : List Char) : Nat :=
  ds.foldl (fun acc c => 10 * acc + digitValue c) 0

/-- The body of a JSON string after the opening quote: ends at the closing
quote, processes the escape sequences of RFC 8259, combines surrogate-pair
escapes, and rejects raw control characters (JSON.parse throws on them).
Every recursive call consumes at least one character, so the fuel argument
(always passed as one more than the input length) never runs out. -/
def parseStrBody : Nat → List Char → Option (List Char × List Char)
  | 0, _ => none
  | _ + 1, [] => none
  | fuel + 1, c :: rest =>
    if c = '"' then some ([], rest)
    else if c = '\\' then
      match rest with
      | [] => none
      | e :: rest2 =>
        if e = 'u' then
          match fourHex rest2 with
          | none => none
          | some (n, rest3) =>
            if 0xd800 ≤ n && n ≤ 0xdbff then
              match rest3 with
              | '\\' :: 'u' :: rest4 =>
                match fourHex rest4 with
                | some (m, rest5) =>
                  if 0xdc00 ≤ m && m ≤ 0xdfff then
                    (parseStrBody fuel rest5).map fun (s, r) =>
                      (codePointChar (0x10000 + (n - 0xd800) * 0x400 + (m - 0xdc00)) :: s, r)
                  else
                    (parseStrBody fuel rest3).map fun (s, r) => (codePointChar n :: s, r)
                | none =>
                  (parseStrBody fuel rest3).map fun (s, r) => (codePointChar n :: s, r)
              | _ =>
                (parseStrBody fuel rest3).map fun (s, r) => (codePointChar n :: s, r)
            else
              (parseStrBody fuel rest3).map fun (s, r) => (codePointChar n :: s, r)
        else
          match (if e = '"' then some '"'
                 else if e = '\\' then some '\\'
                 else if e = '/' then some '/'
                 else if e = 'b' then some '\x08'
                 else if e = 'f' then some '\x0c'
                 else if e = 'n' then some '\n'
                 else if e = 'r' then some '\r'
                 else if e = 't' then some '\t'
                 else none) with
          | some ch => (parseStrBody fuel rest2).map fun (s, r) => (ch :: s, r)
          | none => none
    else if c.toNat < 0x20 then none
    else (parseStrBody fuel rest).map fun (s, r) => (c :: s, r)

/-- The JSON number grammar: optional minus, an integer part that is `0` or
starts with a nonzero digit, an optional fraction with at least one digit,
an optional exponent with at least one digit.  Yields the exact decimal. -/
def parseNumberToken (cs : List Char) : Option (JsonNumber × List Char) :=
  let (neg, cs1) : Bool × List Char :=
    match cs with
    | '-' :: r => (true, r)
    | _ => (false, cs)
  let intPart : Option (List Char × List Char) :=
    match cs1 with
    | '0' :: r => some (['0'], r)
    | c :: r =>
      if isDigitChar c && c ≠ '0' then
        let (ds, r2) := r.span isDigitChar
        some (c :: ds, r2)
      else none
    | [] => none
  match intPart with
  | none => none
  | some (intDs, cs2) =>
    let fracPart : Option (List Char × List Char) :=
      match cs2 with
      | '.' :: r =>
        let (ds, r2) := r.span isDigitChar
        if ds.isEmpty then none else some (ds, r2)
      | _ => some ([], cs2)
    match fracPart with
    | none => none
    | some (fracDs, cs3) =>
      let expPart : Option (Int × List Char) :=
        match cs3 with
        | 'e' :: r | 'E' :: r =>
          let (esgn, r1) : Int × List Char :=
            match r with
            | '+' :: r2 => (1, r2)
            | '-' :: r2 => (-1, r2)
            | _ => (1, r)
          let (ds, r2) := r1.span isDigitChar
          if ds.isEmpty then none else some (esgn * (natOfDigits ds : Int), r2)
        | _ => some (0, cs3)
      match expPart with
      | none => none
      | some (expv, cs4) =>
        let mant : Int :=
          (if neg then -1 else 1) * (natOfDigits (intDs ++ fracDs) : Int)
        some (⟨mant, expv - (fracDs.length : Int)⟩, cs4)

mutual

/-- One JSON value at the head of the input (no leading whitespace).  The fuel
argument only bounds recursion depth; `parseJson` supplies enough of it that
no input of the stated length can exhaust it. -/
def parseVal : Nat → List Char → Option (Json × List Char)
  | 0, _ => none
  | _ + 1, [] => none
  | fuel + 1, c :: rest =>
    if c = '"' then
      (parseStrBody (rest.length + 1) rest).map fun (s, r) => (Json.str ⟨s⟩, r)
    else if c = '[' then
      match skipJsonWs rest with
      | ']' :: r => some (Json.arr [], r)
      | other => (parseItems fuel other).map fun (vs, r) => (Json.arr vs, r)
    else if c = '{' then
      match skipJsonWs rest with
      | '}' :: r => some (Json.obj [], r)
      | other => (parseMembers fuel other).map fun (ms, r) => (Json.obj ms, r)
    else if List.isPrefixOf ['n', 'u', 'l', 'l'] (c :: rest) then
      some (Json.null, rest.drop 3)
    else if List.isPrefixOf ['t', 'r', 'u', 'e'] (c :: rest) then
      some (Json.bool true, rest.drop 3)
    else if List.isPrefixOf ['f', 'a', 'l', 's', 'e'] (c :: rest) then
      some (Json.bool false, rest.drop 4)
    else if c = '-' || isDigitChar c then
      (parseNumberToken (c :: rest)).map fun (n, r) => (Json.num n, r)
    else none

/-- One-or-more comma-separated array elements up to the closing bracket.
Trailing commas are rejected because a value must follow every comma. -/
def parseItems : Nat → List Char → Option (List Json × List Char)
  | 0, _ => none
  | fuel + 1, cs =>
    match parseVal fuel cs with
    | none => none
    | some (v, r) =>
      match skipJsonWs r with
      | ',' :: r2 =>
        (parseItems fuel (skipJsonWs r2)).map fun (vs, r3) => (v :: vs, r3)
      | ']' :: r2 => some ([v], r2)
      | _ => none

/-- One-or-more comma-separated object members up to the closing brace. -/
def parseMembers : Nat → List Char → Option (List (String × Json) × List Char)
  | 0, _ => none
  | fuel + 1, cs =>
    match cs with
    | '"' :: r =>
      match parseStrBody (r.length + 1) r with
      | none => none
      | some (key, r1) =>
        match skipJsonWs r1 with
        | ':' :: r2 =>
          match parseVal fuel (skipJsonWs r2) with
          | none => none
          | some (v, r3) =>
            match skipJsonWs r3 with
            | ',' :: r4 =>
              (parseMembers fuel (skipJsonWs r4)).map fun (ms, r5) =>
                ((⟨key⟩, v) :: ms, r5)
            | '}' :: r4 => some ([(⟨key⟩, v)], r4)
            | _ => none
        | _ => none
    | _ => none

end

/-- JSON.parse on a whole document: whitespace, one value, whitespace, end of
input; `none` models a thrown SyntaxError.  Two fuel units per character is a
strict bound on the call depth of the mutual parser, so fuel never runs out. -/
def parseJson (s : String) : Option Json :=
  let cs := skipJsonWs s.data
  match parseVal (2 * cs.length + 8) cs with
  | some (v, rest) => if (skipJsonWs rest).isEmpty then some v else none
  | none => none

/-! ### trim and markdown-fence cleanup -/

/-- The character set removed by the JS String.prototype.trim: the ECMAScript
WhiteSpace and LineTerminator characters. -/
def isJsTrimWs (c : Char) : Bool :=
  ['\t', '\n', '\x0b', '\x0c', '\r', ' ', '\u00A0', '\u1680', '\u2028', '\u2029',
   '\u202F', '\u205F', '\u3000', '\uFEFF'].contains c ||
  (0x2000 ≤ c.toNat && c.toNat ≤ 0x200A)

/-- String.prototype.trim at the character-list level. -/
def trimChars (cs : List Char) : List Char :=
  ((cs.dropWhile isJsTrimWs).reverse.dropWhile isJsTrimWs).reverse

/-- The characters of the leading fence marker handled by the first cleanup
branch of the handler. -/
def jsonFenceChars : List Char := ['`', '`', '`', 'j', 's', 'o', 'n']

/-- The characters of a bare triple-backtick fence marker. -/
def bareFenceChars : List Char := ['`', '`', '`']

/-- The effect of replace with a fence regex anchored by a startsWith guard:
the fence characters and one optional following newline are removed. -/
def stripFenceLead (fence cs : List Char) : List Char :=
  match cs.drop fence.length with
  | '\n' :: t => t
  | other => other

/-- The effect of replace with the trailing-fence regex: the leftmost match
ending at the end of the string is removed, so a final newline-backtick-
backtick-backtick run loses four characters, a bare final fence loses three,
and anything else is unchanged. -/
def stripFenceTrail (cs : List Char) : List Char :=
  if List.isSuffixOf ['\n', '`', '`', '`'] cs then cs.take (cs.length - 4)
  else if List.isSuffixOf ['`', '`', '`'] cs then cs.take (cs.length - 3)
  else cs

/-- The cleanup block of the handler on the raw completion text: trim, then
the json-fence branch, then the bare-fence branch (each guarded by a
startsWith test on the current text). -/
def cleanChars (raw : List Char) : List Char :=
  let s0 := trimChars raw
  let s1 :=
    if jsonFenceChars.isPrefixOf s0 then stripFenceTrail (stripFenceLead jsonFenceChars s0)
    else s0
  if bareFenceChars.isPrefixOf s1 then stripFenceTrail (stripFenceLead bareFenceChars s1)
  else s1

/-- The cleaned provider reply, as a string. -/
def cleanResponse (raw : String) : String := ⟨cleanChars raw.data⟩

/-! ### JS value helpers: truthiness and property access -/

/-- JS truthiness of a parsed JSON value (NaN cannot arise from JSON.parse,
and an exact decimal is zero exactly when its mantissa is). -/
def Json.truthy : Json → Bool
  | Json.null => false
  | Json.bool b => b
  | Json.num n => !(n.mantissa == 0)
  | Json.str s => !(s == "")
  | Json.arr _ => true
  | Json.obj _ => true

/-- Property lookup in an object built by JSON.parse: with duplicate keys the
last member wins, as in JS. -/
def lookupMember (k : String) : List (String × Json) → Option Json
  | [] => none
  | (k2, v) :: rest =>
    match lookupMember k rest with
    | some r => some r
    | none => if k2 == k then some v else none

/-- JS property access on a parsed value.  Reading a property of null throws
a TypeError (the error message is modelled without the quote marks Node puts
around the key); reading an absent key, or any key of a primitive or array,
yields undefined, modelled as `none`. -/
def getProp (q : Json) (k : String) : Except String (Option Json) :=
  match q with
  | Json.null =>
    Except.error ("Cannot read properties of null (reading " ++ k ++ ")")
  | Json.obj ms => Except.ok (lookupMember k ms)
  | _ => Except.ok none

/-- The JS or-else idiom `v || d`: keep `v` when it is defined and truthy. -/
def orDefault (v : Option Json) (d : Json) : Json :=
  match v with
  | some j => if j.truthy then j else d
  | none => d

/-- The JS conditional `Array.isArray(v) ? v : d`. -/
def arrayOrElse (v : Option Json) (d : Json) : Json :=
  match v with
  | some (Json.arr xs) => Json.arr xs
  | _ => d

/-! ### The handler pipeline -/

/-- The request body fields the handler destructures.  Each field is `none`
when absent from the body; the embedding restricts each to its expected JSON
type, which every claim stays within. -/
structure BatchRequest where
  topic : Option String
  numQuestions : Option Int
  batch : Option Int
  totalQuestions : Option Int

/-- The 200 response body of the handler. -/
structure SuccessBody where
  success : Bool
  questions : List Json
  topic : String
  batch : Int
  questionsInBatch : Nat
  totalQuestions : Int
  hasMoreBatches : Bool

/-- The three response shapes the handler can produce. -/
inductive Response where
  | ok (body : SuccessBody)
  | badRequest (error : String)
  | serverError (error : String) (details : String)

/-- The HTTP status of a response. -/
def Response.status : Response → Nat
  | Response.ok _ => 200
  | Response.badRequest _ => 400
  | Response.serverError _ _ => 500

/-- The JS falsiness test the input validation applies to `topic`. -/
def topicFalsy (req : BatchRequest) : Bool :=
  match req.topic with
  | none => true
  | some t => t == ""

/-- The JS falsiness test the input validation applies to `numQuestions`. -/
def numQuestionsFalsy (req : BatchRequest) : Bool :=
  match req.numQuestions with
  | none => true
  | some n => n == 0

/-- Whether the handler reaches the provider call: exactly when the input
validation guard does not return early. -/
def callsProvider (req : BatchRequest) : Bool :=
  !(topicFalsy req || numQuestionsFalsy req)

/-- Per-batch cap on the number of questions asked of the provider (used only
inside the prompt text). -/
def limitedQuestions (numQuestions : Int) : Int := min numQuestions 10

/-- startingId = (batch - 1) * 10 + 1. -/
def startingId (batch : Int) : Int := (batch - 1) * 10 + 1

/-- The single-question fallback list of variant 1 (note the hard-coded id 1,
independent of the batch number). -/
def fallbackQuestionsV1 (topic : String) : List Json :=
  [Json.obj [
    ("id", Json.int 1),
    ("question", Json.str ("What is a key concept in " ++ topic ++ "?")),
    ("options", Json.arr [
      Json.str "Basic understanding",
      Json.str "Advanced application",
      Json.str "Practical implementation",
      Json.str "Theoretical foundation"]),
    ("correctAnswers", Json.arr [Json.int 0]),
    ("multipleChoice", Json.bool false),
    ("difficulty", Json.str "medium"),
    ("explanation", Json.str "This is a fundamental concept that requires understanding."),
    ("category", Json.str topic)]]

/-- The single-question fallback list of variant 2 (id = startingId,
difficulty hard, correct answer index 2). -/
def fallbackQuestionsV2 (topic : String) (sid : Int) : List Json :=
  [Json.obj [
    ("id", Json.int sid),
    ("question", Json.str ("In a production " ++ topic ++
      " environment, what is the most critical factor when implementing a new feature under high traffic conditions?")),
    ("options", Json.arr [
      Json.str "Performance impact analysis and load testing",
      Json.str "Code review and documentation",
      Json.str "Feature flag implementation and gradual rollout",
      Json.str "Database schema migration strategy"]),
    ("correctAnswers", Json.arr [Json.int 2]),
    ("multipleChoice", Json.bool false),
    ("difficulty", Json.str "hard"),
    ("explanation", Json.str "Feature flags allow safe deployment and quick rollback in production environments, minimizing risk during high traffic."),
    ("category", Json.str topic)]]

/-- The per-element normalization of the validatedQuestions map: an object
literal whose field reads follow the source order, so a null element throws
on its first property read. -/
def normalizeQuestion (topic : String) (sid : Int) (index : Nat) (q : Json) :
    Except String Json := do
  let idv ← getProp q "id"
  let questionv ← getProp q "question"
  let optionsv ← getProp q "options"
  let answersv ← getProp q "correctAnswers"
  let multiv ← getProp q "multipleChoice"
  let diffv ← getProp q "difficulty"
  let explv ← getProp q "explanation"
  let catv ← getProp q "category"
  Except.ok (Json.obj [
    ("id", orDefault idv (Json.int (sid + index))),
    ("question", orDefault questionv (Json.str "")),
    ("options", arrayOrElse optionsv (Json.arr [])),
    ("correctAnswers", arrayOrElse answersv (Json.arr [Json.int 0])),
    ("multipleChoice", orDefault multiv (Json.bool false)),
    ("difficulty", orDefault diffv (Json.str "medium")),
    ("explanation", orDefault explv (Json.str "")),
    ("category", orDefault catv (Json.str topic))])

/-- The indexed map underlying validatedQuestions, from a given index on. -/
def validateFrom (topic : String) (sid : Int) : Nat → List Json → Except String (List Json)
  | _, [] => Except.ok []
  | index, q :: rest => do
    let r ← normalizeQuestion topic sid index q
    let rs ← validateFrom topic sid (index + 1) rest
    Except.ok (r :: rs)

/-- questions.map((q, index) => ...) of the source: normalize every decoded
element, threading the element index. -/
def validatedQuestions (topic : String) (sid : Int) (qs : List Json) :
    Except String (List Json) :=
  validateFrom topic sid 0 qs

/-- The POST /api/generate-quiz handler of variant 1, as a function of the
request body and the raw completion text the provider returns. -/
def handleQuizV1 (req : BatchRequest) (reply : String) : Response :=
  if topicFalsy req || numQuestionsFalsy req then
    Response.badRequest "Topic and number of questions are required"
  else
    let topic := req.topic.getD ""
    let numQuestions := req.numQuestions.getD 0
    let batch := req.batch.getD 1
    let totalQuestions := req.totalQuestions.getD numQuestions
    let sid := startingId batch
    let decoded : Json :=
      match parseJson (cleanResponse reply) with
      | some v => v
      | none => Json.arr (fallbackQuestionsV1 topic)
    match decoded with
    | Json.arr qs =>
      if qs.isEmpty then
        Response.serverError "Failed to generate quiz questions" "Invalid question format received"
      else match validatedQuestions topic sid qs with
      | Except.ok vqs =>
        Response.ok {
          success := true
          questions := vqs
          topic := topic
          batch := batch
          questionsInBatch := vqs.length
          totalQuestions := totalQuestions
          hasMoreBatches := decide (batch * 10 < totalQuestions) }
      | Except.error msg =>
        Response.serverError "Failed to generate quiz questions" msg
    | _ =>
      Response.serverError "Failed to generate quiz questions" "Invalid question format received"

/-- The POST /api/generate-quiz handler of variant 2: identical to variant 1
except for the prompt text (irrelevant to the response) and the fallback
question substituted on parse failure. -/
def handleQuizV2 (req : BatchRequest) (reply : String) : Response :=
  if topicFalsy req || numQuestionsFalsy req then
    Response.badRequest "Topic and number of questions are required"
  else
    let topic := req.topic.getD ""
    let numQuestions := req.numQuestions.getD 0
    let batch := req.batch.getD 1
    let totalQuestions := req.totalQuestions.getD numQuestions
    let sid := startingId batch
    let decoded : Json :=
      match parseJson (cleanResponse reply) with
      | some v => v
      | none => Json.arr (fallbackQuestionsV2 topic sid)
    match decoded with
    | Json.arr qs =>
      if qs.isEmpty then
        Response.serverError "Failed to generate quiz questions" "Invalid question format received"
      else match validatedQuestions topic sid qs with
      | Except.ok vqs =>
        Response.ok {
          success := true
          questions := vqs
          topic := topic
          batch := batch
          questionsInBatch := vqs.length
          totalQuestions := totalQuestions
          hasMoreBatches := decide (batch * 10 < totalQuestions) }
      | Except.error msg =>
        Response.serverError "Failed to generate quiz questions" msg
    | _ =>
      Response.serverError "Failed to generate quiz questions" "Invalid question format received"

/-! ### Observation helpers used by the theorems -/

/-- The questions of a success response (empty for error responses). -/
def okQuestions : Response → List Json
  | Response.ok b => b.questions
  | _ => []

/-- A field of a returned question object, read without the throwing
semantics of `getProp` (every returned question is an object). -/
def objField (q : Json) (k : String) : Option Json :=
  match q with
  | Json.obj ms => lookupMember k ms
  | _ => none

/-- The integer value of a field holding an integer literal. -/
def objFieldInt (q : Json) (k : String) : Option Int :=
  match objField q k with
  | some (Json.num n) => if n.exponent == 0 then some n.mantissa else none
  | _ => none

/-- The string value of a field holding a string. -/
def objFieldStr (q : Json) (k : String) : Option String :=
  match objField q k with
  | some (Json.str s) => some s
  | _ => none

/-- A provider reply wrapped in leading json and trailing bare fences. -/
def wrapJsonFence (t : String) : String := "```json\n" ++ t ++ "\n```"

/-- A provider reply wrapped in bare fences. -/
def wrapBareFence (t : String) : String := "```\n" ++ t ++ "\n```"

/-! ### Example inputs used by witnesses and counterexamples -/

/-- A well-formed request: topic graphs, five questions, defaults elsewhere. -/
def reqEx : BatchRequest := ⟨some "graphs", some 5, none, none⟩

/-- A well-formed request for the second batch of a 25-question quiz. -/
def reqBatch2 : BatchRequest := ⟨some "algebra", some 5, some 2, some 25⟩

/-- A request with a negative question count. -/
def reqNeg : BatchRequest := ⟨some "x", some (-3), none, none⟩

/-- A request with no topic at all. -/
def reqNoTopic : BatchRequest := ⟨none, some 5, none, none⟩

/-- A provider reply decoding to eleven empty objects. -/
def replyEleven : String := "[{},{},{},{},{},{},{},{},{},{},{}]"

/-- The record produced by normalizing an empty object at topic graphs,
startingId 1, index 0: every field takes its default. -/
def normDefaultEx : Json := Json.obj [
  ("id", Json.int 1),
  ("question", Json.str ""),
  ("options", Json.arr []),
  ("correctAnswers", Json.arr [Json.int 0]),
  ("multipleChoice", Json.bool false),
  ("difficulty", Json.str "medium"),
  ("explanation", Json.str ""),
  ("category", Json.str "graphs")]

/-- The index-validity check the spec table asserts for correctAnswers: the
field holds integer indices strictly below the length of options. -/
def answersWithinOptions (q : Json) : Bool :=
  match objField q "options", objField q "correctAnswers" with
  | some (Json.arr opts), some (Json.arr cas) =>
    cas.all fun c =>
      match c with
      | Json.num n => n.exponent == 0 && decide (0 ≤ n.mantissa) &&
          decide (n.mantissa < (opts.length : Int))
      | _ => false
  | _, _ => false

/-- The question text of the first returned question, the observation that
separates the two fallbacks. -/
def obsQuestion (r : Response) : Option String :=
  objFieldStr ((okQuestions r).headD Json.null) "question"

/-- A provider reply that already carries its own json fence. -/
def fencedEx : String := "```json\n[1]\n```"

/-- Whether a validation run succeeded. -/
def validateSucceeds (r : Except String (List Json)) : Bool :=
  match r with
  | Except.ok _ => true
  | Except.error _ => false

/-- Whether a question field holds a JSON array. -/
def fieldIsArray (q : Json) (k : String) : Bool :=
  match objField q k with
  | some (Json.arr _) => true
  | _ => false

/-! ### Structural lemmas about the handlers -/

/-- Decomposition of a variant-1 success response: the decoded value is a
non-empty array, the questions are its normalization, and every other field
is computed from the request alone. -/
theorem handleQuizV1_ok (req : BatchRequest) (reply : String) (body : SuccessBody)
    (h : handleQuizV1 req reply = Response.ok body) :
    ∃ qs, (match parseJson (cleanResponse reply) with
            | some v => v
            | none => Json.arr (fallbackQuestionsV1 (req.topic.getD ""))) = Json.arr qs ∧
      qs ≠ [] ∧
      validatedQuestions (req.topic.getD "") (startingId (req.batch.getD 1)) qs =
        Except.ok body.questions ∧
      body.success = true ∧
      body.topic = req.topic.getD "" ∧
      body.batch = req.batch.getD 1 ∧
      body.questionsInBatch = body.questions.length ∧
      body.totalQuestions = req.totalQuestions.getD (req.numQuestions.getD 0) ∧
      body.hasMoreBatches =
        decide ((req.batch.getD 1) * 10 < req.totalQuestions.getD (req.numQuestions.getD 0)) := by
  simp only [handleQuizV1] at h
  split at h
  · exact absurd h (by simp)
  · split at h
    · rename_i qs heq
      split at h
      · exact absurd h (by simp)
      · rename_i hne
        split at h
        · rename_i vqs hv
          cases h
          exact ⟨qs, heq, by simpa using hne, hv, rfl, rfl, rfl, rfl, rfl, rfl⟩
        · exact absurd h (by simp)
    all_goals exact absurd h (by simp)

/-- Variant-2 analogue of the success decomposition. -/
theorem handleQuizV2_ok (req : BatchRequest) (reply : String) (body : SuccessBody)
    (h : handleQuizV2 req reply = Response.ok body) :
    ∃ qs, (match parseJson (cleanResponse reply) with
            | some v => v
            | none => Json.arr (fallbackQuestionsV2 (req.topic.getD "")
                        (startingId (req.batch.getD 1)))) = Json.arr qs ∧
      qs ≠ [] ∧
      validatedQuestions (req.topic.getD "") (startingId (req.batch.getD 1)) qs =
        Except.ok body.questions ∧
      body.success = true ∧
      body.topic = req.topic.getD "" ∧
      body.batch = req.batch.getD 1 ∧
      body.questionsInBatch = body.questions.length ∧
      body.totalQuestions = req.totalQuestions.getD (req.numQuestions.getD 0) ∧
      body.hasMoreBatches =
        decide ((req.batch.getD 1) * 10 < req.totalQuestions.getD (req.numQuestions.getD 0)) := by
  simp only [handleQuizV2] at h
  split at h
  · exact absurd h (by simp)
  · split at h
    · rename_i qs heq
      split at h
      · exact absurd h (by simp)
      · rename_i hne
        split at h
        · rename_i vqs hv
          cases h
          exact ⟨qs, heq, by simpa using hne, hv, rfl, rfl, rfl, rfl, rfl, rfl⟩
        · exact absurd h (by simp)
    all_goals exact absurd h (by simp)

/-- A request with a non-empty topic and a nonzero question count passes the
falsiness guard. -/
theorem guardFalse (req : BatchRequest) (t : String) (n : Int)
    (h1 : req.topic = some t) (ht : t ≠ "") (h2 : req.numQuestions = some n) (hn : n ≠ 0) :
    (topicFalsy req || numQuestionsFalsy req) = false := by
  simp [topicFalsy, numQuestionsFalsy, h1, h2, ht, hn]

/-- Unfolding of normalization at an object: every property read succeeds
and yields the last member with the key, if any. -/
theorem normalizeQuestion_obj (t : String) (sid : Int) (i : Nat) (ms : List (String × Json)) :
    normalizeQuestion t sid i (Json.obj ms) = Except.ok (Json.obj [
      ("id", orDefault (lookupMember "id" ms) (Json.int (sid + i))),
      ("question", orDefault (lookupMember "question" ms) (Json.str "")),
      ("options", arrayOrElse (lookupMember "options" ms) (Json.arr [])),
      ("correctAnswers", arrayOrElse (lookupMember "correctAnswers" ms) (Json.arr [Json.int 0])),
      ("multipleChoice", orDefault (lookupMember "multipleChoice" ms) (Json.bool false)),
      ("difficulty", orDefault (lookupMember "difficulty" ms) (Json.str "medium")),
      ("explanation", orDefault (lookupMember "explanation" ms) (Json.str "")),
      ("category", orDefault (lookupMember "category" ms) (Json.str t))]) := rfl

/-- Normalization of a null element throws on the first property read. -/
theorem normalizeQuestion_null (t : String) (sid : Int) (i : Nat) :
    normalizeQuestion t sid i Json.null =
      Except.error "Cannot read properties of null (reading id)" := rfl

/-- Normalization at any non-null, non-object value: every property read
yields undefined, so every field takes its default. -/
theorem normalizeQuestion_default (t : String) (sid : Int) (i : Nat) (q : Json)
    (hq : q ≠ Json.null) (hq2 : ∀ ms, q ≠ Json.obj ms) :
    normalizeQuestion t sid i q = Except.ok (Json.obj [
      ("id", Json.int (sid + i)),
      ("question", Json.str ""),
      ("options", Json.arr []),
      ("correctAnswers", Json.arr [Json.int 0]),
      ("multipleChoice", Json.bool false),
      ("difficulty", Json.str "medium"),
      ("explanation", Json.str ""),
      ("category", Json.str t)]) := by
  cases q with
  | null => exact absurd rfl hq
  | obj ms => exact absurd rfl (hq2 ms)
  | bool b => rfl
  | num n => rfl
  | str s => rfl
  | arr xs => rfl

theorem validateFrom_nil (t : String) (sid : Int) (i : Nat) :
    validateFrom t sid i [] = Except.ok [] := rfl

theorem validateFrom_cons_ok (t : String) (sid : Int) (i : Nat) (q : Json)
    (rest : List Json) (r : Json) (rs : List Json)
    (h : normalizeQuestion t sid i q = Except.ok r)
    (h2 : validateFrom t sid (i + 1) rest = Except.ok rs) :
    validateFrom t sid i (q :: rest) = Except.ok (r :: rs) := by
  unfold validateFrom
  rw [h, h2]
  rfl

theorem validateFrom_cons_err (t : String) (sid : Int) (i : Nat) (q : Json)
    (rest : List Json) (e : String)
    (h : normalizeQuestion t sid i q = Except.error e) :
    validateFrom t sid i (q :: rest) = Except.error e := by
  unfold validateFrom
  rw [h]
  rfl

/-- Prepending and appending literal text keeps a string non-empty. -/
theorem ne_empty_of_append (a t b : String) (ha : a.data ≠ []) : a ++ t ++ b ≠ "" := by
  intro h
  have h2 := congrArg String.data h
  have h3 : a.data ++ t.data ++ b.data = [] := h2
  simp [List.append_eq_nil] at h3
  exact ha h3.1

/-- With a non-empty topic, the variant-1 fallback question normalizes to
itself: every field of the hand-written record is already truthy or already
of the checked shape. -/
theorem validate_fallbackV1 (t : String) (ht : t ≠ "") (sid : Int) :
    validatedQuestions t sid (fallbackQuestionsV1 t) = Except.ok (fallbackQuestionsV1 t) := by
  have hq := ne_empty_of_append "What is a key concept in " t "?" (by decide)
  unfold validatedQuestions fallbackQuestionsV1
  refine validateFrom_cons_ok _ _ _ _ _ _ _ ?_ (validateFrom_nil _ _ _)
  rw [normalizeQuestion_obj]
  simp [lookupMember, orDefault, arrayOrElse, Json.truthy, Json.int, ht, hq]

/-- The variant-2 analogue; its id is startingId, whose truthiness needs the
extra fact that it is nonzero. -/
theorem validate_fallbackV2 (t : String) (ht : t ≠ "") (sid : Int) (hsid : sid ≠ 0) :
    validatedQuestions t sid (fallbackQuestionsV2 t sid) =
      Except.ok (fallbackQuestionsV2 t sid) := by
  have hq := ne_empty_of_append "In a production " t
    " environment, what is the most critical factor when implementing a new feature under high traffic conditions?"
    (by decide)
  unfold validatedQuestions fallbackQuestionsV2
  refine validateFrom_cons_ok _ _ _ _ _ _ _ ?_ (validateFrom_nil _ _ _)
  rw [normalizeQuestion_obj]
  simp [lookupMember, orDefault, arrayOrElse, Json.truthy, Json.int, ht, hq, hsid]

/-- startingId is 1 modulo 10, hence never zero. -/
theorem startingId_ne_zero (b : Int) : startingId b ≠ 0 := by
  unfold startingId; omega

/-- Helper: a successfully parsed non-array, or an empty array, makes both
variants answer with the structural-validation 500. -/
theorem handle_nonarray_500 (req : BatchRequest) (reply : String) (v : Json)
    (hg : (topicFalsy req || numQuestionsFalsy req) = false)
    (hv : parseJson (cleanResponse reply) = some v)
    (hbad : (∀ xs, v ≠ Json.arr xs) ∨ v = Json.arr []) :
    handleQuizV1 req reply =
      Response.serverError "Failed to generate quiz questions" "Invalid question format received" ∧
    handleQuizV2 req reply =
      Response.serverError "Failed to generate quiz questions" "Invalid question format received" := by
  constructor
  · unfold handleQuizV1
    rw [hg]
    simp only [Bool.false_eq_true, if_false, hv]
    rcases hbad with hne | rfl
    · cases v <;> first | rfl | exact absurd rfl (hne _)
    · rfl
  · unfold handleQuizV2
    rw [hg]
    simp only [Bool.false_eq_true, if_false, hv]
    rcases hbad with hne | rfl
    · cases v <;> first | rfl | exact absurd rfl (hne _)
    · rfl

/-- Helper: when the cleaned reply fails to parse, each variant substitutes
its own fallback question and answers 200 with success true. -/
theorem handle_parse_failure_ok (req : BatchRequest) (reply : String) (t : String) (n : Int)
    (h1 : req.topic = some t) (ht : t ≠ "") (h2 : req.numQuestions = some n) (hn : n ≠ 0)
    (hp : parseJson (cleanResponse reply) = none) :
    handleQuizV1 req reply = Response.ok
      { success := true, questions := fallbackQuestionsV1 t, topic := t,
        batch := req.batch.getD 1, questionsInBatch := 1,
        totalQuestions := req.totalQuestions.getD n,
        hasMoreBatches := decide ((req.batch.getD 1) * 10 < req.totalQuestions.getD n) } ∧
    handleQuizV2 req reply = Response.ok
      { success := true, questions := fallbackQuestionsV2 t (startingId (req.batch.getD 1)),
        topic := t, batch := req.batch.getD 1, questionsInBatch := 1,
        totalQuestions := req.totalQuestions.getD n,
        hasMoreBatches := decide ((req.batch.getD 1) * 10 < req.totalQuestions.getD n) } := by
  have hg := guardFalse req t n h1 ht h2 hn
  have hne1 : (fallbackQuestionsV1 t).isEmpty = false := rfl
  have hne2 : (fallbackQuestionsV2 t (startingId (req.batch.getD 1))).isEmpty = false := rfl
  have hl1 : (fallbackQuestionsV1 t).length = 1 := rfl
  have hl2 : (fallbackQuestionsV2 t (startingId (req.batch.getD 1))).length = 1 := rfl
  constructor
  · unfold handleQuizV1
    rw [hg]
    simp only [Bool.false_eq_true, if_false, hp, h1, h2, Option.getD_some]
    rw [validate_fallbackV1 t ht]
    simp [hne1, hl1]
  · unfold handleQuizV2
    rw [hg]
    simp only [Bool.false_eq_true, if_false, hp, h1, h2, Option.getD_some]
    rw [validate_fallbackV2 t ht _ (startingId_ne_zero _)]
    simp [hne2, hl2]

/-- Helper: the observable fields of the two fallback questions. -/
theorem fallback_fields (t : String) (sid : Int) :
    objFieldInt ((fallbackQuestionsV1 t).headD Json.null) "id" = some 1 ∧
    objFieldStr ((fallbackQuestionsV1 t).headD Json.null) "difficulty" = some "medium" ∧
    objField ((fallbackQuestionsV1 t).headD Json.null) "correctAnswers" =
      some (Json.arr [Json.int 0]) ∧
    objFieldStr ((fallbackQuestionsV1 t).headD Json.null) "category" = some t ∧
    objFieldInt ((fallbackQuestionsV2 t sid).headD Json.null) "id" = some sid ∧
    objFieldStr ((fallbackQuestionsV2 t sid).headD Json.null) "difficulty" = some "hard" ∧
    objField ((fallbackQuestionsV2 t sid).headD Json.null) "correctAnswers" =
      some (Json.arr [Json.int 2]) ∧
    objFieldStr ((fallbackQuestionsV2 t sid).headD Json.null) "category" = some t := by
  refine ⟨?_, ?_, ?_, ?_, ?_, ?_, ?_, ?_⟩ <;>
    simp [fallbackQuestionsV1, fallbackQuestionsV2, objFieldInt, objFieldStr, objField,
      lookupMember, Json.int]

/-- C1 (corrected): when the cleaned provider reply fails JSON decoding, both
variants still answer 200 with success true and exactly one fallback
question whose category is the topic; but variant 1 hard-codes id 1 (which
equals startingId only for batch 1) with difficulty medium and
correctAnswers [0], while variant 2 uses id startingId with difficulty hard
and correctAnswers [2]. -/
theorem C1_parse_fallback (req : BatchRequest) (reply : String) (t : String) (n : Int)
    (h1 : req.topic = some t) (ht : t ≠ "") (h2 : req.numQuestions = some n) (hn : n ≠ 0)
    (hp : parseJson (cleanResponse reply) = none) :
    handleQuizV1 req reply = Response.ok
      { success := true, questions := fallbackQuestionsV1 t, topic := t,
        batch := req.batch.getD 1, questionsInBatch := 1,
        totalQuestions := req.totalQuestions.getD n,
        hasMoreBatches := decide ((req.batch.getD 1) * 10 < req.totalQuestions.getD n) } ∧
    handleQuizV2 req reply = Response.ok
      { success := true, questions := fallbackQuestionsV2 t (startingId (req.batch.getD 1)),
        topic := t, batch := req.batch.getD 1, questionsInBatch := 1,
        totalQuestions := req.totalQuestions.getD n,
        hasMoreBatches := decide ((req.batch.getD 1) * 10 < req.totalQuestions.getD n) } ∧
    objFieldInt ((fallbackQuestionsV1 t).headD Json.null) "id" = some 1 ∧
    objFieldStr ((fallbackQuestionsV1 t).headD Json.null) "difficulty" = some "medium" ∧
    objField ((fallbackQuestionsV1 t).headD Json.null) "correctAnswers" =
      some (Json.arr [Json.int 0]) ∧
    objFieldStr ((fallbackQuestionsV1 t).headD Json.null) "category" = some t ∧
    objFieldInt ((fallbackQuestionsV2 t (startingId (req.batch.getD 1))).headD Json.null) "id" =
      some (startingId (req.batch.getD 1)) ∧
    objFieldStr ((fallbackQuestionsV2 t (startingId (req.batch.getD 1))).headD Json.null)
      "difficulty" = some "hard" ∧
    objField ((fallbackQuestionsV2 t (startingId (req.batch.getD 1))).headD Json.null)
      "correctAnswers" = some (Json.arr [Json.int 2]) ∧
    objFieldStr ((fallbackQuestionsV2 t (startingId (req.batch.getD 1))).headD Json.null)
      "category" = some t := by
  obtain ⟨hv1, hv2⟩ := handle_parse_failure_ok req reply t n h1 ht h2 hn hp
  obtain ⟨f1, f2, f3, f4, f5, f6, f7, f8⟩ := fallback_fields t (startingId (req.batch.getD 1))
  exact ⟨hv1, hv2, f1, f2, f3, f4, f5, f6, f7, f8⟩

/-- C1 counterexample: at batch 2 the variant-1 fallback id is 1 while
startingId is 11, so the returned fallback id does not equal startingId. -/
theorem C1_counterexample :
    (handleQuizV1 reqBatch2 "not json").status = 200 ∧
    objFieldInt ((okQuestions (handleQuizV1 reqBatch2 "not json")).headD Json.null) "id" =
      some 1 ∧
    startingId (reqBatch2.batch.getD 1) = 11 ∧
    (1 : Int) ≠ 11 := ⟨rfl, rfl, rfl, by decide⟩

/-- C1 witness: the amended statement at a concrete batch-2 request and an
unparseable reply. -/
theorem C1_witness :
    handleQuizV1 reqBatch2 "not json" = Response.ok
      { success := true, questions := fallbackQuestionsV1 "algebra", topic := "algebra",
        batch := 2, questionsInBatch := 1, totalQuestions := 25,
        hasMoreBatches := decide ((2 : Int) * 10 < 25) } ∧
    handleQuizV2 reqBatch2 "not json" = Response.ok
      { success := true, questions := fallbackQuestionsV2 "algebra" (startingId 2),
        topic := "algebra", batch := 2, questionsInBatch := 1, totalQuestions := 25,
        hasMoreBatches := decide ((2 : Int) * 10 < 25) } ∧
    objFieldInt ((fallbackQuestionsV1 "algebra").headD Json.null) "id" = some 1 ∧
    objFieldStr ((fallbackQuestionsV1 "algebra").headD Json.null) "difficulty" = some "medium" ∧
    objField ((fallbackQuestionsV1 "algebra").headD Json.null) "correctAnswers" =
      some (Json.arr [Json.int 0]) ∧
    objFieldStr ((fallbackQuestionsV1 "algebra").headD Json.null) "category" = some "algebra" ∧
    objFieldInt ((fallbackQuestionsV2 "algebra" (startingId 2)).headD Json.null) "id" =
      some (startingId 2) ∧
    objFieldStr ((fallbackQuestionsV2 "algebra" (startingId 2)).headD Json.null) "difficulty" =
      some "hard" ∧
    objField ((fallbackQuestionsV2 "algebra" (startingId 2)).headD Json.null) "correctAnswers" =
      some (Json.arr [Json.int 2]) ∧
    objFieldStr ((fallbackQuestionsV2 "algebra" (startingId 2)).headD Json.null) "category" =
      some "algebra" :=
  C1_parse_fallback reqBatch2 "not json" "algebra" 5 rfl (by decide) rfl (by decide) rfl

/-- C5 (confirmed): a cleaned reply that parses successfully to a non-array
value or to an empty array makes both variants answer 500 with the
Invalid question format received detail, never a success response. -/
theorem C5_invalid_format_500 (req : BatchRequest) (reply : String) (v : Json)
    (hg : (topicFalsy req || numQuestionsFalsy req) = false)
    (hv : parseJson (cleanResponse reply) = some v)
    (hbad : (∀ xs, v ≠ Json.arr xs) ∨ v = Json.arr []) :
    handleQuizV1 req reply =
      Response.serverError "Failed to generate quiz questions" "Invalid question format received" ∧
    handleQuizV2 req reply =
      Response.serverError "Failed to generate quiz questions" "Invalid question format received" :=
  handle_nonarray_500 req reply v hg hv hbad

/-- C5 witness: the reply consisting of an empty JSON object. -/
theorem C5_witness :
    handleQuizV1 reqEx "{}" =
      Response.serverError "Failed to generate quiz questions" "Invalid question format received" ∧
    handleQuizV2 reqEx "{}" =
      Response.serverError "Failed to generate quiz questions" "Invalid question format received" :=
  C5_invalid_format_500 reqEx "{}" (Json.obj []) rfl rfl
    (Or.inl fun _ h => Json.noConfusion h)

/-- C6 (corrected): a reply whose top-level JSON value has the wrong type is
not absorbed by the fallback: it parses successfully, fails the structural
array check, and propagates as a 500; only a reply whose text fails JSON
parsing triggers the fallback success. -/
theorem C6_wrong_type_propagates (req : BatchRequest) (reply : String) (t : String) (n : Int)
    (h1 : req.topic = some t) (ht : t ≠ "") (h2 : req.numQuestions = some n) (hn : n ≠ 0) :
    (∀ v, parseJson (cleanResponse reply) = some v → (∀ xs, v ≠ Json.arr xs) →
      (handleQuizV1 req reply).status = 500 ∧ (handleQuizV2 req reply).status = 500) ∧
    (parseJson (cleanResponse reply) = none →
      (handleQuizV1 req reply).status = 200 ∧ (handleQuizV2 req reply).status = 200) := by
  constructor
  · intro v hv hna
    obtain ⟨e1, e2⟩ :=
      handle_nonarray_500 req reply v (guardFalse req t n h1 ht h2 hn) hv (Or.inl hna)
    rw [e1, e2]
    exact ⟨rfl, rfl⟩
  · intro hp
    obtain ⟨e1, e2⟩ := handle_parse_failure_ok req reply t n h1 ht h2 hn hp
    rw [e1, e2]
    exact ⟨rfl, rfl⟩

/-- C6 counterexample: the reply consisting of an empty JSON object parses
successfully to a non-array, and both variants answer 500, not a fallback
success as the claim states. -/
theorem C6_counterexample :
    parseJson (cleanResponse "{}") = some (Json.obj []) ∧
    handleQuizV1 reqEx "{}" =
      Response.serverError "Failed to generate quiz questions" "Invalid question format received" ∧
    handleQuizV2 reqEx "{}" =
      Response.serverError "Failed to generate quiz questions" "Invalid question format received" :=
  ⟨rfl, rfl, rfl⟩

/-- C6 witness: the amended statement at an object reply and at an
unparseable reply. -/
theorem C6_witness :
    ((handleQuizV1 reqEx "{}").status = 500 ∧ (handleQuizV2 reqEx "{}").status = 500) ∧
    ((handleQuizV1 reqEx "x").status = 200 ∧ (handleQuizV2 reqEx "x").status = 200) :=
  ⟨(C6_wrong_type_propagates reqEx "{}" "graphs" 5 rfl (by decide) rfl (by decide)).1
      (Json.obj []) rfl (fun _ h => Json.noConfusion h),
   (C6_wrong_type_propagates reqEx "x" "graphs" 5 rfl (by decide) rfl (by decide)).2 rfl⟩

/-- C2 (confirmed): the hasMoreBatches flag of any success response of either
variant equals batch * 10 < totalQuestions, computed from the requested batch
and requested totalQuestions (defaulting to numQuestions), independently of
the decoded questions. -/
theorem C2_hasMoreBatches (req : BatchRequest) (reply : String) (body : SuccessBody)
    (h : handleQuizV1 req reply = Response.ok body ∨ handleQuizV2 req reply = Response.ok body) :
    body.hasMoreBatches =
      decide ((req.batch.getD 1) * 10 < req.totalQuestions.getD (req.numQuestions.getD 0)) := by
  rcases h with h | h
  · obtain ⟨qs, -, -, -, -, -, -, -, -, hb⟩ := handleQuizV1_ok req reply body h
    exact hb
  · obtain ⟨qs, -, -, -, -, -, -, -, -, hb⟩ := handleQuizV2_ok req reply body h
    exact hb

/-- C2 witness: a concrete success response with batch 1 and totalQuestions
5, whose flag is false. -/
theorem C2_witness :
    (SuccessBody.mk true (fallbackQuestionsV1 "graphs") "graphs" 1 1 5 false).hasMoreBatches =
      decide ((1 : Int) * 10 < 5) :=
  C2_hasMoreBatches reqEx "x" (SuccessBody.mk true (fallbackQuestionsV1 "graphs") "graphs" 1 1 5 false)
    (Or.inl (by rfl))

/-- C4 (corrected): the guard rejects an absent or empty topic and an absent
or zero numQuestions with a 400 and no provider call, but a negative
numQuestions is truthy in JS and passes validation, so non-positive counts
are not all rejected. -/
theorem C4_validation (req : BatchRequest) (reply : String) :
    ((topicFalsy req || numQuestionsFalsy req) = true →
      handleQuizV1 req reply = Response.badRequest "Topic and number of questions are required" ∧
      handleQuizV2 req reply = Response.badRequest "Topic and number of questions are required" ∧
      callsProvider req = false) ∧
    ((topicFalsy req || numQuestionsFalsy req) = false →
      (handleQuizV1 req reply).status ≠ 400 ∧
      (handleQuizV2 req reply).status ≠ 400 ∧
      callsProvider req = true) := by
  constructor
  · intro hg
    refine ⟨?_, ?_, ?_⟩
    · unfold handleQuizV1; rw [hg]; simp
    · unfold handleQuizV2; rw [hg]; simp
    · simp [callsProvider, hg]
  · intro hg
    refine ⟨?_, ?_, ?_⟩
    · unfold handleQuizV1; rw [hg]
      simp only [Bool.false_eq_true, if_false]
      split
      · split
        · simp [Response.status]
        · split <;> simp [Response.status]
      · simp [Response.status]
    · unfold handleQuizV2; rw [hg]
      simp only [Bool.false_eq_true, if_false]
      split
      · split
        · simp [Response.status]
        · split <;> simp [Response.status]
      · simp [Response.status]
    · simp [callsProvider, hg]

/-- C4 counterexample: numQuestions -3 is non-positive, yet the request
passes validation, the provider is called, and the response is a 200. -/
theorem C4_counterexample :
    reqNeg.numQuestions = some (-3) ∧
    callsProvider reqNeg = true ∧
    (handleQuizV1 reqNeg "x").status = 200 ∧
    (handleQuizV2 reqNeg "x").status = 200 := ⟨rfl, rfl, by rfl, by rfl⟩

/-- C4 witness: a request without topic is rejected with the 400 message and
no provider call; a well-formed request is never answered 400. -/
theorem C4_witness :
    (handleQuizV1 reqNoTopic "x" = Response.badRequest "Topic and number of questions are required" ∧
     handleQuizV2 reqNoTopic "x" = Response.badRequest "Topic and number of questions are required" ∧
     callsProvider reqNoTopic = false) ∧
    ((handleQuizV1 reqEx "x").status ≠ 400 ∧
     (handleQuizV2 reqEx "x").status ≠ 400 ∧
     callsProvider reqEx = true) :=
  ⟨(C4_validation reqNoTopic "x").1 rfl, (C4_validation reqEx "x").2 rfl⟩

/-- Inversion of one normalization step of the validatedQuestions map. -/
theorem validateFrom_cons_ok_inv (t : String) (sid : Int) (i : Nat) (q : Json)
    (rest : List Json) (rs : List Json)
    (h : validateFrom t sid i (q :: rest) = Except.ok rs) :
    ∃ r rs', normalizeQuestion t sid i q = Except.ok r ∧
      validateFrom t sid (i + 1) rest = Except.ok rs' ∧ rs = r :: rs' := by
  unfold validateFrom at h
  cases hn : normalizeQuestion t sid i q with
  | error e =>
    rw [hn] at h
    have h' : (Except.error e : Except String (List Json)) = Except.ok rs := h
    cases h'
  | ok r =>
    rw [hn] at h
    cases hv : validateFrom t sid (i + 1) rest with
    | error e =>
      rw [hv] at h
      have h' : (Except.error e : Except String (List Json)) = Except.ok rs := h
      cases h'
    | ok rs' =>
      rw [hv] at h
      have h' : Except.ok (r :: rs') = Except.ok rs := h
      exact ⟨r, rs', rfl, rfl, (Except.ok.inj h').symm⟩

/-- When every decoded element is an object without an id member, the
normalized records carry the sequential default ids sid + index. -/
theorem validateFrom_no_id (t : String) (sid : Int) :
    ∀ (qs : List Json) (i0 : Nat) (rs : List Json),
      (∀ q ∈ qs, ∃ ms, q = Json.obj ms ∧ lookupMember "id" ms = none) →
      validateFrom t sid i0 qs = Except.ok rs →
      rs.length = qs.length ∧
      ∀ j, j < rs.length →
        objFieldInt (rs.getD j Json.null) "id" = some (sid + (i0 + j : Nat)) := by
  intro qs
  induction qs with
  | nil =>
    intro i0 rs hno h
    rw [validateFrom_nil] at h
    cases Except.ok.inj h
    exact ⟨rfl, fun j hj => absurd hj (by simp)⟩
  | cons q rest ih =>
    intro i0 rs hno h
    obtain ⟨ms, rfl, hid⟩ := hno q (List.mem_cons_self q rest)
    obtain ⟨r, rs', hr, hrest, rfl⟩ := validateFrom_cons_ok_inv t sid i0 _ rest rs h
    rw [normalizeQuestion_obj, hid] at hr
    obtain ⟨hlen, hids⟩ := ih (i0 + 1) rs' (fun q hq => hno q (List.mem_cons_of_mem _ hq)) hrest
    constructor
    · simp [hlen]
    · intro j hj
      cases j with
      | zero =>
        cases Except.ok.inj hr
        simp [objFieldInt, objField, lookupMember, orDefault, Json.int]
      | succ j =>
        have hj' : j < rs'.length := by simpa using hj
        have := hids j hj'
        have harith : sid + ((i0 + 1 + j : Nat) : Int) = sid + ((i0 + (j + 1) : Nat) : Int) := by
          push_cast
          ring
        rw [harith] at this
        simpa using this

/-- C3 (corrected): startingId is (batch - 1) * 10 + 1 and, when the decoded
array supplies no id members, ids are assigned sequentially as startingId +
index; they all fall inside the window startingId .. startingId + 9 only
under the extra assumption that the decoded array has at most ten elements,
which the code does not enforce. -/
theorem C3_sequential_ids (req : BatchRequest) (reply : String) (body : SuccessBody)
    (qs : List Json)
    (hp : parseJson (cleanResponse reply) = some (Json.arr qs))
    (hno : ∀ q ∈ qs, ∃ ms, q = Json.obj ms ∧ lookupMember "id" ms = none)
    (h : handleQuizV1 req reply = Response.ok body ∨ handleQuizV2 req reply = Response.ok body) :
    startingId (req.batch.getD 1) = (req.batch.getD 1 - 1) * 10 + 1 ∧
    body.questions.length = qs.length ∧
    (∀ j, j < body.questions.length →
      objFieldInt (body.questions.getD j Json.null) "id" =
        some (startingId (req.batch.getD 1) + j)) ∧
    (qs.length ≤ 10 → ∀ j, j < body.questions.length →
      startingId (req.batch.getD 1) ≤ startingId (req.batch.getD 1) + j ∧
      startingId (req.batch.getD 1) + j ≤ startingId (req.batch.getD 1) + 9) := by
  have key : validatedQuestions (req.topic.getD "") (startingId (req.batch.getD 1)) qs =
      Except.ok body.questions := by
    rcases h with h | h
    · obtain ⟨qs', heq, -, hval, -⟩ := handleQuizV1_ok req reply body h
      rw [hp] at heq
      cases Json.arr.inj heq
      exact hval
    · obtain ⟨qs', heq, -, hval, -⟩ := handleQuizV2_ok req reply body h
      rw [hp] at heq
      cases Json.arr.inj heq
      exact hval
  obtain ⟨hlen, hids⟩ := validateFrom_no_id (req.topic.getD "") (startingId (req.batch.getD 1))
    qs 0 body.questions hno key
  refine ⟨rfl, hlen, ?_, ?_⟩
  · intro j hj
    have := hids j hj
    simpa using this
  · intro hten j hj
    have hj10 : j ≤ 9 := by omega
    have : (j : Int) ≤ 9 := by exact_mod_cast hj10
    omega

/-- C3 counterexample: a decoded array of eleven id-free objects makes the
eleventh returned question carry id 11, outside the claimed window 1 .. 10
of batch 1. -/
theorem C3_counterexample :
    parseJson (cleanResponse replyEleven) =
      some (Json.arr (List.replicate 11 (Json.obj []))) ∧
    (handleQuizV1 reqEx replyEleven).status = 200 ∧
    objFieldInt ((okQuestions (handleQuizV1 reqEx replyEleven)).getD 10 Json.null) "id" =
      some 11 ∧
    startingId (reqEx.batch.getD 1) = 1 ∧
    ¬((11 : Int) ≤ 1 + 9) := ⟨rfl, rfl, rfl, rfl, by decide⟩

/-- C3 witness: two id-free objects at batch 1 get ids 1 and 2, inside the
window. -/
theorem C3_witness :
    startingId (reqEx.batch.getD 1) = (reqEx.batch.getD 1 - 1) * 10 + 1 ∧
    objFieldInt ((SuccessBody.mk true
        (okQuestions (handleQuizV1 reqEx "[{},{}]")) "graphs" 1 2 5 false).questions.getD 0
          Json.null) "id" = some (startingId (reqEx.batch.getD 1) + (0 : Nat)) ∧
    objFieldInt ((SuccessBody.mk true
        (okQuestions (handleQuizV1 reqEx "[{},{}]")) "graphs" 1 2 5 false).questions.getD 1
          Json.null) "id" = some (startingId (reqEx.batch.getD 1) + (1 : Nat)) := by
  obtain ⟨h1, h2, h3, h4⟩ := C3_sequential_ids reqEx "[{},{}]"
    (SuccessBody.mk true (okQuestions (handleQuizV1 reqEx "[{},{}]")) "graphs" 1 2 5 false)
    [Json.obj [], Json.obj []] rfl
    (by
      intro q hq
      simp only [List.mem_cons, List.not_mem_nil, or_false] at hq
      rcases hq with rfl | rfl
      · exact ⟨[], rfl, rfl⟩
      · exact ⟨[], rfl, rfl⟩)
    (Or.inl (by rfl))
  exact ⟨h1, h3 0 (by rw [h2]; decide), h3 1 (by rw [h2]; decide)⟩

theorem orDefault_self (d : Json) : orDefault (some d) d = d := by
  simp [orDefault]

theorem orDefault_stable (p : Option Json) (d : Json) :
    orDefault (some (orDefault p d)) d = orDefault p d := by
  cases p with
  | none => simp [orDefault_self, orDefault]
  | some j =>
    by_cases hj : j.truthy
    · simp [orDefault, hj]
    · simp only [orDefault, hj, Bool.false_eq_true, if_false]
      exact orDefault_self d

theorem arrayOrElse_stable (p : Option Json) (ds : List Json) :
    arrayOrElse (some (arrayOrElse p (Json.arr ds))) (Json.arr ds) =
      arrayOrElse p (Json.arr ds) := by
  cases p with
  | none => rfl
  | some j => cases j <;> rfl

theorem normalizeQuestion_obj_idem (t : String) (sid : Int) (i : Nat)
    (ms : List (String × Json)) (r : Json)
    (h : normalizeQuestion t sid i (Json.obj ms) = Except.ok r) :
    normalizeQuestion t sid i r = Except.ok r := by
  rw [normalizeQuestion_obj] at h
  cases Except.ok.inj h
  rw [normalizeQuestion_obj]
  simp [lookupMember, orDefault_stable, arrayOrElse_stable]

theorem normalizeQuestion_idem (t : String) (sid : Int) (i : Nat) (q r : Json)
    (h : normalizeQuestion t sid i q = Except.ok r) :
    normalizeQuestion t sid i r = Except.ok r := by
  cases q with
  | null =>
    rw [normalizeQuestion_null] at h
    cases h
  | obj ms => exact normalizeQuestion_obj_idem t sid i ms r h
  | bool b => exact normalizeQuestion_obj_idem t sid i [] r h
  | num n => exact normalizeQuestion_obj_idem t sid i [] r h
  | str s => exact normalizeQuestion_obj_idem t sid i [] r h
  | arr xs => exact normalizeQuestion_obj_idem t sid i [] r h

theorem normalizeQuestion_total (t : String) (sid : Int) (i : Nat) (q : Json)
    (hq : q ≠ Json.null) : ∃ r, normalizeQuestion t sid i q = Except.ok r := by
  cases q with
  | null => exact absurd rfl hq
  | obj ms => exact ⟨_, normalizeQuestion_obj t sid i ms⟩
  | bool b => exact ⟨_, rfl⟩
  | num n => exact ⟨_, rfl⟩
  | str s => exact ⟨_, rfl⟩
  | arr xs => exact ⟨_, rfl⟩

theorem validateFrom_total (t : String) (sid : Int) :
    ∀ (qs : List Json) (i : Nat), (∀ q ∈ qs, q ≠ Json.null) →
      ∃ rs, validateFrom t sid i qs = Except.ok rs := by
  intro qs
  induction qs with
  | nil => exact fun i _ => ⟨[], validateFrom_nil t sid i⟩
  | cons q rest ih =>
    intro i hno
    obtain ⟨r, hr⟩ := normalizeQuestion_total t sid i q (hno q (List.mem_cons_self q rest))
    obtain ⟨rs, hrs⟩ := ih (i + 1) fun q hq => hno q (List.mem_cons_of_mem _ hq)
    exact ⟨r :: rs, validateFrom_cons_ok t sid i q rest r rs hr hrs⟩

theorem validateFrom_idem (t : String) (sid : Int) :
    ∀ (qs : List Json) (i : Nat) (rs : List Json),
      validateFrom t sid i qs = Except.ok rs → validateFrom t sid i rs = Except.ok rs := by
  intro qs
  induction qs with
  | nil =>
    intro i rs h
    rw [validateFrom_nil] at h
    cases Except.ok.inj h
    exact validateFrom_nil t sid i
  | cons q rest ih =>
    intro i rs h
    obtain ⟨r, rs', hr, hrest, rfl⟩ := validateFrom_cons_ok_inv t sid i q rest rs h
    exact validateFrom_cons_ok t sid i r rs' r rs'
      (normalizeQuestion_idem t sid i q r hr) (ih (i + 1) rs' hrest)

/-- C7 (corrected): normalization is total on every element except null (a
null element throws a TypeError on its first property read) and is
idempotent: renormalizing an already-normalized record list at the same
topic, startingId and index yields the same list. -/
theorem C7_normalization_total_idem (t : String) (sid : Int) (i : Nat) :
    (∀ qs : List Json, (∀ q ∈ qs, q ≠ Json.null) →
      ∃ rs, validateFrom t sid i qs = Except.ok rs) ∧
    (∀ qs rs, validateFrom t sid i qs = Except.ok rs →
      validateFrom t sid i rs = Except.ok rs) ∧
    (∀ q r, normalizeQuestion t sid i q = Except.ok r →
      normalizeQuestion t sid i r = Except.ok r) :=
  ⟨fun qs hno => validateFrom_total t sid qs i hno,
   fun qs rs h => validateFrom_idem t sid qs i rs h,
   fun q r h => normalizeQuestion_idem t sid i q r h⟩

/-- C7 counterexample: the reply decoding to the non-empty array with a
single null element makes normalization throw, so the handler answers 500
even though the top-level value was a non-empty array. -/
theorem C7_counterexample :
    validatedQuestions "graphs" 1 [Json.null] =
      Except.error "Cannot read properties of null (reading id)" ∧
    parseJson (cleanResponse "[null]") = some (Json.arr [Json.null]) ∧
    handleQuizV1 reqEx "[null]" =
      Response.serverError "Failed to generate quiz questions"
        "Cannot read properties of null (reading id)" ∧
    handleQuizV2 reqEx "[null]" =
      Response.serverError "Failed to generate quiz questions"
        "Cannot read properties of null (reading id)" := ⟨rfl, rfl, rfl, rfl⟩

/-- C7 witness: a two-element malformed list normalizes successfully, and
the normalization of an all-defaults record is that record again. -/
theorem C7_witness :
    validateSucceeds (validateFrom "graphs" 1 0 [Json.obj [], Json.bool true]) = true ∧
    validateFrom "graphs" 1 0 [normDefaultEx] = Except.ok [normDefaultEx] ∧
    normalizeQuestion "graphs" 1 0 normDefaultEx = Except.ok normDefaultEx := by
  obtain ⟨rs, hrs⟩ := (C7_normalization_total_idem "graphs" 1 0).1 [Json.obj [], Json.bool true]
    (by
      intro q hq
      simp only [List.mem_cons, List.not_mem_nil, or_false] at hq
      rcases hq with rfl | rfl <;> simp)
  refine ⟨by rw [hrs]; rfl, ?_, ?_⟩
  · exact (C7_normalization_total_idem "graphs" 1 0).2.1 [Json.obj []] [normDefaultEx] (by rfl)
  · exact (C7_normalization_total_idem "graphs" 1 0).2.2 (Json.obj []) normDefaultEx (by rfl)

/-- The array-or-default conditional always yields an array. -/
theorem arrayOrElse_is_arr (p : Option Json) (ds : List Json) :
    ∃ cs, arrayOrElse p (Json.arr ds) = Json.arr cs := by
  cases p with
  | none => exact ⟨ds, rfl⟩
  | some j => cases j <;> exact ⟨_, rfl⟩

/-- Every normalized record carries an array in its correctAnswers field. -/
theorem normalizeQuestion_answers_arr (t : String) (sid : Int) (i : Nat) (q r : Json)
    (h : normalizeQuestion t sid i q = Except.ok r) :
    ∃ cs, objField r "correctAnswers" = some (Json.arr cs) := by
  cases q with
  | null =>
    rw [normalizeQuestion_null] at h
    cases h
  | obj ms =>
    rw [normalizeQuestion_obj] at h
    cases Except.ok.inj h
    obtain ⟨cs, hcs⟩ := arrayOrElse_is_arr (lookupMember "correctAnswers" ms) [Json.int 0]
    exact ⟨cs, by simp [objField, lookupMember, hcs]⟩
  | bool b =>
    rw [normalizeQuestion_default t sid i (Json.bool b) (by simp) (fun ms => by simp)] at h
    cases Except.ok.inj h
    exact ⟨[Json.int 0], by simp [objField, lookupMember]⟩
  | num n =>
    rw [normalizeQuestion_default t sid i (Json.num n) (by simp) (fun ms => by simp)] at h
    cases Except.ok.inj h
    exact ⟨[Json.int 0], by simp [objField, lookupMember]⟩
  | str s =>
    rw [normalizeQuestion_default t sid i (Json.str s) (by simp) (fun ms => by simp)] at h
    cases Except.ok.inj h
    exact ⟨[Json.int 0], by simp [objField, lookupMember]⟩
  | arr xs =>
    rw [normalizeQuestion_default t sid i (Json.arr xs) (by simp) (fun ms => by simp)] at h
    cases Except.ok.inj h
    exact ⟨[Json.int 0], by simp [objField, lookupMember]⟩

/-- Lifting of the correctAnswers shape to the whole validated list. -/
theorem validateFrom_answers_arr (t : String) (sid : Int) :
    ∀ (qs : List Json) (i : Nat) (rs : List Json),
      validateFrom t sid i qs = Except.ok rs →
      ∀ r ∈ rs, ∃ cs, objField r "correctAnswers" = some (Json.arr cs) := by
  intro qs
  induction qs with
  | nil =>
    intro i rs h
    rw [validateFrom_nil] at h
    cases Except.ok.inj h
    intro r hr
    exact absurd hr (List.not_mem_nil r)
  | cons q rest ih =>
    intro i rs h
    obtain ⟨r0, rs', hr0, hrest, rfl⟩ := validateFrom_cons_ok_inv t sid i q rest rs h
    intro r hr
    rcases List.mem_cons.mp hr with rfl | hr'
    · exact normalizeQuestion_answers_arr t sid i q r hr0
    · exact ih (i + 1) rs' hrest r hr'

/-- C9 (corrected): every returned question carries a JSON array in
correctAnswers (defaulting to the single index 0 when the provider value is
not an array), but the code never checks its elements against the length of
options, so they need not be valid indices. -/
theorem C9_answers_array_shape (req : BatchRequest) (reply : String) (body : SuccessBody)
    (h : handleQuizV1 req reply = Response.ok body ∨ handleQuizV2 req reply = Response.ok body) :
    ∀ q ∈ body.questions, ∃ cs, objField q "correctAnswers" = some (Json.arr cs) := by
  rcases h with h | h
  · obtain ⟨qs, -, -, hval, -⟩ := handleQuizV1_ok req reply body h
    exact validateFrom_answers_arr _ _ qs 0 body.questions hval
  · obtain ⟨qs, -, -, hval, -⟩ := handleQuizV2_ok req reply body h
    exact validateFrom_answers_arr _ _ qs 0 body.questions hval

/-- C9 counterexample: an empty decoded object yields options of length 0
with correctAnswers [0], so the claimed index bound fails on a returned
success response. -/
theorem C9_counterexample :
    (handleQuizV1 reqEx "[{}]").status = 200 ∧
    objField ((okQuestions (handleQuizV1 reqEx "[{}]")).headD Json.null) "options" =
      some (Json.arr []) ∧
    objField ((okQuestions (handleQuizV1 reqEx "[{}]")).headD Json.null) "correctAnswers" =
      some (Json.arr [Json.int 0]) ∧
    answersWithinOptions ((okQuestions (handleQuizV1 reqEx "[{}]")).headD Json.null) = false :=
  ⟨rfl, rfl, rfl, rfl⟩

/-- C9 witness: the correctAnswers field of a concrete returned question is
an array. -/
theorem C9_witness : fieldIsArray normDefaultEx "correctAnswers" = true := by
  obtain ⟨cs, hcs⟩ := C9_answers_array_shape reqEx "[{}]"
    (SuccessBody.mk true [normDefaultEx] "graphs" 1 1 5 false)
    (Or.inl (by rfl)) normDefaultEx (List.mem_cons_self _ _)
  simp [fieldIsArray, hcs]

/-- C10 (corrected): the two handler variants produce the same response on
invalid requests and whenever the cleaned reply parses successfully; they
diverge exactly on parse failure, where each substitutes its own distinct
fallback question. -/
theorem C10_variants_agree (req : BatchRequest) (reply : String)
    (h : (topicFalsy req || numQuestionsFalsy req) = true ∨
         ∃ v, parseJson (cleanResponse reply) = some v) :
    handleQuizV1 req reply = handleQuizV2 req reply := by
  unfold handleQuizV1 handleQuizV2
  rcases h with hg | ⟨v, hv⟩
  · rw [hg]
    simp
  · by_cases hg : (topicFalsy req || numQuestionsFalsy req) = true
    · rw [hg]
      simp
    · have hg' : (topicFalsy req || numQuestionsFalsy req) = false := by
        simpa using hg
      rw [hg']
      simp only [Bool.false_eq_true, if_false, hv]

/-- C10 counterexample: on a valid request with an unparseable reply, the
variants answer with different fallback question texts, so they are not
observationally equivalent. -/
theorem C10_counterexample :
    obsQuestion (handleQuizV1 reqEx "x") = some "What is a key concept in graphs?" ∧
    obsQuestion (handleQuizV2 reqEx "x") =
      some "In a production graphs environment, what is the most critical factor when implementing a new feature under high traffic conditions?" ∧
    handleQuizV1 reqEx "x" ≠ handleQuizV2 reqEx "x" := by
  refine ⟨rfl, rfl, fun h => ?_⟩
  have h2 := congrArg obsQuestion h
  have e1 : obsQuestion (handleQuizV1 reqEx "x") = some "What is a key concept in graphs?" := rfl
  have e2 : obsQuestion (handleQuizV2 reqEx "x") =
      some "In a production graphs environment, what is the most critical factor when implementing a new feature under high traffic conditions?" := rfl
  rw [e1, e2] at h2
  exact absurd (Option.some.inj h2) (by decide)

/-- C10 witness: the variants agree on a request without a topic and on a
well-formed request whose reply parses. -/
theorem C10_witness :
    handleQuizV1 reqNoTopic "x" = handleQuizV2 reqNoTopic "x" ∧
    handleQuizV1 reqEx "[{}]" = handleQuizV2 reqEx "[{}]" :=
  ⟨C10_variants_agree reqNoTopic "x" (Or.inl rfl),
   C10_variants_agree reqEx "[{}]" (Or.inr ⟨Json.arr [Json.obj []], rfl⟩)⟩

theorem trimChars_of_ends (a b : Char) (mid : List Char)
    (ha : isJsTrimWs a = false) (hb : isJsTrimWs b = false) :
    trimChars (a :: (mid ++ [b])) = a :: (mid ++ [b]) := by
  unfold trimChars
  rw [List.dropWhile_cons, ha]
  simp only [Bool.false_eq_true, if_false]
  rw [show (a :: (mid ++ [b])).reverse = b :: (mid.reverse ++ [a]) by simp]
  rw [List.dropWhile_cons, hb]
  simp

theorem stripFenceLead_append (fence rest : List Char) :
    stripFenceLead fence (fence ++ '\n' :: rest) = rest := by
  unfold stripFenceLead
  rw [List.drop_left]
  rfl

theorem stripFenceTrail_append (t : List Char) :
    stripFenceTrail (t ++ ['\n', '`', '`', '`']) = t := by
  unfold stripFenceTrail
  have hs : List.isSuffixOf ['\n', '`', '`', '`'] (t ++ ['\n', '`', '`', '`']) = true := by
    simp [List.isSuffixOf, List.reverse_append, List.isPrefixOf]
  rw [hs]
  simp only [if_true]
  have hl : (t ++ ['\n', '`', '`', '`']).length - 4 = t.length := by
    simp [List.length_append]
  rw [hl]
  exact List.take_left t ['\n', '`', '`', '`']

theorem bareFence_le_jsonFence (t : List Char)
    (h : jsonFenceChars.isPrefixOf t = true) : bareFenceChars.isPrefixOf t = true := by
  have hj := List.isPrefixOf_iff_prefix.mp h
  have hb : bareFenceChars <+: jsonFenceChars := ⟨['j', 's', 'o', 'n'], rfl⟩
  exact List.isPrefixOf_iff_prefix.mpr (hb.trans hj)

theorem cleanChars_id (t : List Char) (h1 : trimChars t = t)
    (h2 : bareFenceChars.isPrefixOf t = false) : cleanChars t = t := by
  have hj : jsonFenceChars.isPrefixOf t = false := by
    by_contra h
    rw [Bool.not_eq_false] at h
    rw [bareFence_le_jsonFence t h] at h2
    cases h2
  simp only [cleanChars, h1, hj, h2, Bool.false_eq_true, if_false]

theorem cleanChars_wrapJson (t : List Char) (h2 : bareFenceChars.isPrefixOf t = false) :
    cleanChars (jsonFenceChars ++ '\n' :: (t ++ ['\n', '`', '`', '`'])) = t := by
  have htrim : trimChars (jsonFenceChars ++ '\n' :: (t ++ ['\n', '`', '`', '`'])) =
      jsonFenceChars ++ '\n' :: (t ++ ['\n', '`', '`', '`']) := by
    have hW : jsonFenceChars ++ '\n' :: (t ++ ['\n', '`', '`', '`']) =
        '`' :: ((['`', '`', 'j', 's', 'o', 'n', '\n'] ++ t ++ ['\n', '`', '`']) ++ ['`']) := by
      simp [jsonFenceChars]
    rw [hW, trimChars_of_ends _ _ _ (by decide) (by decide), ← hW]
  have hpre : jsonFenceChars.isPrefixOf
      (jsonFenceChars ++ '\n' :: (t ++ ['\n', '`', '`', '`'])) = true :=
    List.isPrefixOf_iff_prefix.mpr ⟨_, rfl⟩
  simp only [cleanChars, htrim, hpre, if_true]
  rw [stripFenceLead_append, stripFenceTrail_append, h2]
  simp

theorem cleanChars_wrapBare (t : List Char) :
    cleanChars (bareFenceChars ++ '\n' :: (t ++ ['\n', '`', '`', '`'])) = t := by
  have htrim : trimChars (bareFenceChars ++ '\n' :: (t ++ ['\n', '`', '`', '`'])) =
      bareFenceChars ++ '\n' :: (t ++ ['\n', '`', '`', '`']) := by
    have hW : bareFenceChars ++ '\n' :: (t ++ ['\n', '`', '`', '`']) =
        '`' :: ((['`', '`', '\n'] ++ t ++ ['\n', '`', '`']) ++ ['`']) := by
      simp [bareFenceChars]
    rw [hW, trimChars_of_ends _ _ _ (by decide) (by decide), ← hW]
  have hjson : jsonFenceChars.isPrefixOf
      (bareFenceChars ++ '\n' :: (t ++ ['\n', '`', '`', '`'])) = false := by
    simp [jsonFenceChars, bareFenceChars, List.isPrefixOf]
  have hpre : bareFenceChars.isPrefixOf
      (bareFenceChars ++ '\n' :: (t ++ ['\n', '`', '`', '`'])) = true :=
    List.isPrefixOf_iff_prefix.mpr ⟨_, rfl⟩
  simp only [cleanChars, htrim, hjson, hpre, Bool.false_eq_true, if_false, if_true]
  rw [stripFenceLead_append, stripFenceTrail_append]

/-- C8 (corrected): wrapping an already-trimmed reply that does not itself
begin with a fence inside json fences or bare fences yields the identical
cleaned text, hence the same decoded value and the same response from both
variants; without that proviso the claim fails (see the counterexample). -/
theorem C8_fence_equivalence (t : String) (req : BatchRequest)
    (h1 : trimChars t.data = t.data)
    (h2 : bareFenceChars.isPrefixOf t.data = false) :
    cleanResponse (wrapJsonFence t) = t ∧
    cleanResponse (wrapBareFence t) = t ∧
    cleanResponse t = t ∧
    parseJson (cleanResponse (wrapJsonFence t)) = parseJson (cleanResponse t) ∧
    parseJson (cleanResponse (wrapBareFence t)) = parseJson (cleanResponse t) ∧
    handleQuizV1 req (wrapJsonFence t) = handleQuizV1 req t ∧
    handleQuizV1 req (wrapBareFence t) = handleQuizV1 req t ∧
    handleQuizV2 req (wrapJsonFence t) = handleQuizV2 req t ∧
    handleQuizV2 req (wrapBareFence t) = handleQuizV2 req t := by
  have hd1 : (wrapJsonFence t).data =
      jsonFenceChars ++ '\n' :: (t.data ++ ['\n', '`', '`', '`']) := rfl
  have hd2 : (wrapBareFence t).data =
      bareFenceChars ++ '\n' :: (t.data ++ ['\n', '`', '`', '`']) := rfl
  have e1 : cleanResponse (wrapJsonFence t) = t := by
    show (⟨cleanChars (wrapJsonFence t).data⟩ : String) = t
    rw [hd1, cleanChars_wrapJson t.data h2]
  have e2 : cleanResponse (wrapBareFence t) = t := by
    show (⟨cleanChars (wrapBareFence t).data⟩ : String) = t
    rw [hd2, cleanChars_wrapBare t.data]
  have e3 : cleanResponse t = t := by
    show (⟨cleanChars t.data⟩ : String) = t
    rw [cleanChars_id t.data h1 h2]
  have p1 : parseJson (cleanResponse (wrapJsonFence t)) = parseJson (cleanResponse t) := by
    rw [e1, e3]
  have p2 : parseJson (cleanResponse (wrapBareFence t)) = parseJson (cleanResponse t) := by
    rw [e2, e3]
  refine ⟨e1, e2, e3, p1, p2, ?_, ?_, ?_, ?_⟩
  · unfold handleQuizV1
    rw [p1]
  · unfold handleQuizV1
    rw [p2]
  · unfold handleQuizV2
    rw [p1]
  · unfold handleQuizV2
    rw [p2]

/-- C8 counterexample: a reply that already carries its own json fence is
double-stripped when wrapped once more, so the wrapped reply no longer
parses while the unwrapped one does, and the responses differ. -/
theorem C8_counterexample :
    parseJson (cleanResponse (wrapJsonFence fencedEx)) = none ∧
    parseJson (cleanResponse fencedEx) = some (Json.arr [Json.int 1]) ∧
    (none : Option Json) ≠ some (Json.arr [Json.int 1]) ∧
    obsQuestion (handleQuizV1 reqEx (wrapJsonFence fencedEx)) =
      some "What is a key concept in graphs?" ∧
    obsQuestion (handleQuizV1 reqEx fencedEx) = some "" ∧
    handleQuizV1 reqEx (wrapJsonFence fencedEx) ≠ handleQuizV1 reqEx fencedEx := by
  refine ⟨rfl, rfl, by simp, rfl, rfl, fun h => ?_⟩
  have h2 := congrArg obsQuestion h
  have e1 : obsQuestion (handleQuizV1 reqEx (wrapJsonFence fencedEx)) =
      some "What is a key concept in graphs?" := rfl
  have e2 : obsQuestion (handleQuizV1 reqEx fencedEx) = some "" := rfl
  rw [e1, e2] at h2
  exact absurd (Option.some.inj h2) (by decide)

/-- C8 witness: the amended statement at the concrete trimmed reply
consisting of a two-element array. -/
theorem C8_witness :
    cleanResponse (wrapJsonFence "[1, 2]") = "[1, 2]" ∧
    cleanResponse (wrapBareFence "[1, 2]") = "[1, 2]" ∧
    cleanResponse "[1, 2]" = "[1, 2]" ∧
    parseJson (cleanResponse (wrapJsonFence "[1, 2]")) = parseJson (cleanResponse "[1, 2]") ∧
    parseJson (cleanResponse (wrapBareFence "[1, 2]")) = parseJson (cleanResponse "[1, 2]") ∧
    handleQuizV1 reqEx (wrapJsonFence "[1, 2]") = handleQuizV1 reqEx "[1, 2]" ∧
    handleQuizV1 reqEx (wrapBareFence "[1, 2]") = handleQuizV1 reqEx "[1, 2]" ∧
    handleQuizV2 reqEx (wrapJsonFence "[1, 2]") = handleQuizV2 reqEx "[1, 2]" ∧
    handleQuizV2 reqEx (wrapBareFence "[1, 2]") = handleQuizV2 reqEx "[1, 2]" :=
  C8_fence_equivalence "[1, 2]" reqEx rfl rfl
